import Mathlib

/- Verification of the metric anomaly detection core of
   rancher/opni-metric-anomaly-detector, shallowly embedded from
   src/metric-forecasting/metric_anomaly_detector.py.

   Modelling conventions:
   * Python floats that only flow through comparisons, min/max and
     arithmetic are embedded as rationals; Unix timestamps as naturals.
   * The SARIMAX forecaster (metric_model.py, ArimaModel.train and
     ArimaModel.predict) and the ruptures segmenter (rpt.Pelt) are external
     capabilities.  A Forecaster is an arbitrary deterministic function of
     the data the source computes the training series from: the timestamp
     list, the training-value list and the training-window start index
     (the pandas dedup + minute resample + positional slice of
     train_and_predict is a pure function of exactly those three, and is
     folded into the opaque forecaster argument).  The Option result models
     a raised exception in fit or predict (none = raise).
   * A Segmenter is an arbitrary function from the training slice to the
     breakpoint index list returned by rpt.Pelt(...).predict(pen=10).
   * Python truthiness tests (if y_pred: ...) are embedded by truthyQ /
     truthyN: none and 0 are falsy.
   * datetime.fromtimestamp is injective, so metric_xs stores the
     normalized integral timestamps directly.
   * A tick on which an exception escapes MetricAnomalyDetector.run is a
     RunResult.exn carrying the state as mutated up to the raise point
     (Python mutations are not rolled back by an exception).
   * pred_history is indexed with getD; in every state reachable through
     the embedded API the index is in range, so the default is never hit.
-/

namespace MetricForecasting

/-- Sampling interval in seconds: LOOP_TIME_SECOND (default 60.0). -/
def LOOP_TIME_SECOND : ℕ := 60

/-- Maximum size of the rolling training window: ROLLING_TRAINING_SIZE. -/
def ROLLING_TRAINING_SIZE : ℕ := 1440

/-- Minimum number of buffered points before model-based judgment:
MIN_TRAINING_SIZE. -/
def MIN_TRAINING_SIZE : ℕ := 30

/-- Accumulator threshold promoting an anomaly streak to an alert:
ALERT_SCORE_THRESHOLD. -/
def ALERT_SCORE_THRESHOLD : ℤ := 5

/-- Look-back distance of the change point trigger: CPD_TRACE_BACK_TIME. -/
def CPD_TRACE_BACK_TIME : ℕ := 30

/-- Timestamp normalization at the top of run:
int(xs_raw) // LOOP_TIME_SECOND * LOOP_TIME_SECOND. -/
def normTs (t : ℕ) : ℕ := t / LOOP_TIME_SECOND * LOOP_TIME_SECOND

/-- Python truthiness of an optional float: None and 0.0 are falsy. -/
def truthyQ : Option ℚ → Bool
  | none => false
  | some v => decide (v ≠ 0)

/-- Python truthiness of an optional timestamp: None and 0 are falsy. -/
def truthyN : Option ℕ → Bool
  | none => false
  | some v => decide (v ≠ 0)

/-- Mutable state of MetricAnomalyDetector (fields of __init__). -/
structure MetricAnomalyDetector where
  cluster_id : String
  metric_name : String
  metric_xs : List ℕ
  metric_y : List ℚ
  metric_rawy : List ℚ
  pred_history : List (Option ℚ × Option ℚ × Option ℚ)
  alert_score_counter : ℤ
  anomaly_history : List ℕ
  start_index : ℕ
  anomaly_start_time : Option ℕ
  deriving DecidableEq

/-- MetricAnomalyDetector.__init__(metric_name, cluster_id). -/
def freshDetector (metric_name cluster_id : String) : MetricAnomalyDetector :=
  { cluster_id := cluster_id, metric_name := metric_name, metric_xs := [],
    metric_y := [], metric_rawy := [], pred_history := [],
    alert_score_counter := 0, anomaly_history := [], start_index := 0,
    anomaly_start_time := none }

/-- The _source record of one persisted history document, as read back by
MetricAnomalyDetector.load. -/
structure HistoryDoc where
  timestamp : ℕ
  y : ℚ
  yhat : Option ℚ
  yhat_lower : Option ℚ
  yhat_upper : Option ℚ
  is_anomaly : ℕ
  deriving DecidableEq

/-- One iteration of the loop body of MetricAnomalyDetector.load. -/
def loadOne (s : MetricAnomalyDetector) (d : HistoryDoc) : MetricAnomalyDetector :=
  { s with metric_xs := s.metric_xs ++ [d.timestamp],
           metric_y := s.metric_y ++ [d.y],
           metric_rawy := s.metric_rawy ++ [d.y],
           pred_history := s.pred_history ++ [(d.yhat, d.yhat_lower, d.yhat_upper)],
           anomaly_history := s.anomaly_history ++ [d.is_anomaly] }

/-- MetricAnomalyDetector.load(history_data): replay persisted docs. -/
def load (s : MetricAnomalyDetector) (docs : List HistoryDoc) : MetricAnomalyDetector :=
  docs.foldl loadOne s

/-- The opaque forecasting capability (ArimaModel.train followed by
ArimaModel.predict with horizon RETRAINING_INTERVAL_MINUTE = 1), as a
deterministic function of the data the training series is built from.
none models a raised exception. -/
abbrev Forecaster := List ℕ → List ℚ → ℕ → Option (ℚ × ℚ × ℚ)

/-- The opaque segmentation capability rpt.Pelt(model="rbf").fit(xs)
.predict(pen=10), as a function of the training slice. -/
abbrev Segmenter := List ℚ → List ℕ

/-- The emitted json_payload record (one Evaluation). alert_len keeps the
integer number of minutes formatted into the "... minutes" string. -/
structure Payload where
  cluster_id : String
  metric_name : String
  timestamp : ℕ
  is_anomaly : ℕ
  alert_score : ℤ
  is_alert : ℕ
  y : ℚ
  yhat : ℚ
  yhat_lower : ℚ
  yhat_upper : ℚ
  confidence_score : ℕ
  alert_id : Option ℕ
  alert_len : Option ℤ
  deriving DecidableEq

/-- Outcome of one call to MetricAnomalyDetector.run: a normal return with
the state and the returned payload (none for the duplicate-timestamp early
return), or an escaped exception carrying the state as mutated so far. -/
inductive RunResult where
  | ok (s : MetricAnomalyDetector) (payload : Option Payload)
  | exn (s : MetricAnomalyDetector)
  deriving DecidableEq

/-- The detector state after a run outcome. -/
def RunResult.state : RunResult → MetricAnomalyDetector
  | .ok s _ => s
  | .exn s => s

/-- The payload produced by a run outcome, if any. -/
def RunResult.payload : RunResult → Option Payload
  | .ok _ p => p
  | .exn _ => none

/-- Whether the run outcome is an escaped exception. -/
def RunResult.isExn : RunResult → Bool
  | .ok _ _ => false
  | .exn _ => true

/-- The alert-score accumulator step, lines 94-103 of run: on an anomalous
tick remember the start time if the score was zero and increment; on a
normal tick with a positive score decrement by two, and on reaching the
floor reset the score to zero and clear the start time. -/
def alertStep (counter : ℤ) (ast : Option ℕ) (is_anomaly : ℕ) (now : ℕ) :
    ℤ × Option ℕ :=
  if is_anomaly = 1 then
    (counter + 1, if counter = 0 then some now else ast)
  else
    if 0 < counter then
      if counter - 2 ≤ 0 then (0, none) else (counter - 2, ast)
    else (counter, ast)

/-- The accumulator step applied to a detector state. -/
def tailScore (s1 : MetricAnomalyDetector) (is_anomaly : ℕ) (xs_raw : ℕ) :
    ℤ × Option ℕ :=
  alertStep s1.alert_score_counter s1.anomaly_start_time is_anomaly xs_raw

/-- The json_payload literal of lines 68-82 before any of the Active-state
overrides. -/
def basePayload (s1 : MetricAnomalyDetector) (xs_raw : ℕ) (y_new : ℚ) : Payload :=
  { cluster_id := s1.cluster_id, metric_name := s1.metric_name,
    timestamp := xs_raw, is_anomaly := 0, alert_score := 0, is_alert := 0,
    y := y_new, yhat := y_new, yhat_lower := y_new, yhat_upper := y_new,
    confidence_score := 0, alert_id := s1.anomaly_start_time, alert_len := none }

/-- The payload emitted by an Active-state tick: the base payload after the
overrides of lines 104-126, including the truthiness-guarded clamping of
yhat, yhat_lower and yhat_upper. -/
def tailPayload (s1 : MetricAnomalyDetector) (xs_raw : ℕ) (y_new : ℚ)
    (y_pred y_pred_low y_pred_high : Option ℚ) (is_anomaly : ℕ) : Payload :=
  let st := tailScore s1 is_anomaly xs_raw
  { cluster_id := s1.cluster_id, metric_name := s1.metric_name,
    timestamp := xs_raw, is_anomaly := is_anomaly, alert_score := st.1,
    is_alert := if ALERT_SCORE_THRESHOLD ≤ st.1 then 1 else 0,
    y := y_new,
    yhat := if truthyQ y_pred then y_pred.getD 0 else y_new,
    yhat_lower := if truthyQ y_pred_low then min (max 0 (y_pred_low.getD 0)) 100 else y_new,
    yhat_upper := if truthyQ y_pred_high then min (max (y_pred_high.getD 0) 0) 100 else y_new,
    confidence_score := 1,
    alert_id := st.2,
    alert_len :=
      if truthyN st.2 then
        some (((xs_raw : ℤ) - ((st.2.getD 0 : ℕ) : ℤ)).fdiv (LOOP_TIME_SECOND : ℤ))
      else none }

/-- The state after an Active-state tick and before the change point
trigger: scorer fields updated, the cpu_usage training-value clipping of
lines 131-138 applied, and the four per-tick appends of lines 140-143. -/
def tailState (s1 : MetricAnomalyDetector) (xs_raw : ℕ) (y_new : ℚ)
    (y_pred_low y_pred_high : Option ℚ) (is_anomaly : ℕ) : MetricAnomalyDetector :=
  let st := tailScore s1 is_anomaly xs_raw
  let is_alert : ℕ := if ALERT_SCORE_THRESHOLD ≤ st.1 then 1 else 0
  let y_train :=
    if s1.metric_name = ("cpu_usage") ∧ is_alert = 0 ∧ is_anomaly = 1 then
      if y_new < y_pred_low.getD 0 then y_pred_low.getD 0 else y_pred_high.getD 0
    else y_new
  { s1 with alert_score_counter := st.1, anomaly_start_time := st.2,
            anomaly_history := s1.anomaly_history ++ [is_anomaly],
            metric_xs := s1.metric_xs ++ [xs_raw],
            metric_y := s1.metric_y ++ [y_train],
            metric_rawy := s1.metric_rawy ++ [y_new] }

/-- The state after a Bootstrap-state tick: pred_history gets the
(None, None, None) placeholder of line 129, is_anomaly stays 0, and the
four per-tick appends of lines 140-143 run. -/
def bootState (s1 : MetricAnomalyDetector) (xs_raw : ℕ) (y_new : ℚ) :
    MetricAnomalyDetector :=
  { s1 with pred_history := s1.pred_history ++ [(none, none, none)],
            anomaly_history := s1.anomaly_history ++ [0],
            metric_xs := s1.metric_xs ++ [xs_raw],
            metric_y := s1.metric_y ++ [y_new],
            metric_rawy := s1.metric_rawy ++ [y_new] }

/-- The new training-window start computed by change_point_detection:
scan the segmenter's breakpoints (final trivial one removed) from most
recent to oldest and advance by the first within tolerance 5 of
len(training_y) - CPD_TRACE_BACK_TIME; otherwise keep the old start. -/
def cpdNewStart (Seg : Segmenter) (s : MetricAnomalyDetector) : ℕ :=
  if 2 * CPD_TRACE_BACK_TIME ≤ (s.metric_y.drop s.start_index).length then
    match ((Seg (s.metric_y.drop s.start_index)).dropLast).reverse.find?
        (fun (l : ℕ) => decide
          (((l : ℤ) - ((s.metric_y.drop s.start_index).length : ℤ) +
            (CPD_TRACE_BACK_TIME : ℤ)).natAbs ≤ 5)) with
    | some l => s.start_index + l
    | none => s.start_index
  else s.start_index

/-- MetricAnomalyDetector.change_point_detection: only start_index moves. -/
def change_point_detection (Seg : Segmenter) (s : MetricAnomalyDetector) :
    MetricAnomalyDetector :=
  { s with start_index := cpdNewStart Seg s }

/-- The change point trigger of lines 145-150 of run: fire when the anomaly
history is long enough, the flag CPD_TRACE_BACK_TIME ticks back was 1, and
the metric is cpu_usage. -/
def maybeCPD (Seg : Segmenter) (s : MetricAnomalyDetector) : MetricAnomalyDetector :=
  if CPD_TRACE_BACK_TIME ≤ s.anomaly_history.length ∧
      s.anomaly_history.getD (s.anomaly_history.length - CPD_TRACE_BACK_TIME) 0 = 1 ∧
      s.metric_name = ("cpu_usage") then
    change_point_detection Seg s
  else s

/-- A Bootstrap-state tick of run (fewer than MIN_TRAINING_SIZE buffered
points): emit the base payload, record the placeholder prediction and the
point, then run the change point trigger. -/
def bootstrapStep (Seg : Segmenter) (s1 : MetricAnomalyDetector)
    (xs_raw : ℕ) (y_new : ℚ) : RunResult :=
  RunResult.ok (maybeCPD Seg (bootState s1 xs_raw y_new))
    (some (basePayload s1 xs_raw y_new))

/-- The tail of an Active-state tick of run, after is_anomaly has been
decided: scorer update, payload overrides, training-value clipping,
appends and the change point trigger. -/
def runTail (Seg : Segmenter) (s1 : MetricAnomalyDetector) (xs_raw : ℕ)
    (y_new : ℚ) (y_pred y_pred_low y_pred_high : Option ℚ) (is_anomaly : ℕ) :
    RunResult :=
  RunResult.ok (maybeCPD Seg (tailState s1 xs_raw y_new y_pred_low y_pred_high is_anomaly))
    (some (tailPayload s1 xs_raw y_new y_pred y_pred_low y_pred_high is_anomaly))

/-- The rolling-window recompute of lines 218-219 of train_and_predict. -/
def rollingStart (s : MetricAnomalyDetector) : ℕ :=
  if ROLLING_TRAINING_SIZE < s.metric_y.length - s.start_index then
    s.metric_y.length - ROLLING_TRAINING_SIZE
  else s.start_index

/-- MetricAnomalyDetector.train_and_predict: once MIN_TRAINING_SIZE points
are buffered, recompute the window start, then fit and forecast one step,
appending the forecast triple to pred_history.  The Bool is true when the
forecaster raised (the exception escapes; pred_history is not appended,
but the start_index recompute has already happened). -/
def train_and_predict (F : Forecaster) (s : MetricAnomalyDetector) :
    MetricAnomalyDetector × Bool :=
  if MIN_TRAINING_SIZE ≤ s.metric_xs.length then
    match F s.metric_xs s.metric_y (rollingStart s) with
    | none => ({ s with start_index := rollingStart s }, true)
    | some (p, lo, hi) =>
      ({ s with start_index := rollingStart s,
                pred_history := s.pred_history ++ [(some p, some lo, some hi)] }, false)
  else (s, false)

/-- The two-sided anomaly decision of lines 89-92 of run, followed by the
common tail: anomalous iff the observed value leaves the forecast band.
Python short-circuits `y_new < y_pred_low or y_new > y_pred_high`, so a
missing lower band always raises (TypeError escaping run), while a missing
upper band raises only when the lower comparison was false. -/
def twoSidedTail (Seg : Segmenter) (s1 : MetricAnomalyDetector) (xs_raw : ℕ)
    (y_new : ℚ) (trip : Option ℚ × Option ℚ × Option ℚ) : RunResult :=
  match trip.2.1 with
  | none => RunResult.exn s1
  | some lo =>
    if y_new < lo then
      runTail Seg s1 xs_raw y_new trip.1 (some lo) trip.2.2 1
    else
      match trip.2.2 with
      | none => RunResult.exn s1
      | some hi =>
        runTail Seg s1 xs_raw y_new trip.1 (some lo) (some hi)
          (if hi < y_new then 1 else 0)

/-- MetricAnomalyDetector.run on one scraped sample (timestamp, value).
Normalize the timestamp, reject duplicates, train and forecast, decide
is_anomaly per metric policy (fixed ceiling 80 for disk_usage, the
forecast band otherwise), then run the common tail.  Fewer than
MIN_TRAINING_SIZE points: bootstrap echo tick. -/
def runStep (F : Forecaster) (Seg : Segmenter) (s : MetricAnomalyDetector)
    (ts_raw : ℕ) (y_raw : ℚ) : RunResult :=
  let xs_raw := normTs ts_raw
  if xs_raw ∈ s.metric_xs then RunResult.ok s none
  else
    let y_new := y_raw
    match train_and_predict F s with
    | (s1, true) => RunResult.exn s1
    | (s1, false) =>
      if MIN_TRAINING_SIZE ≤ s1.metric_xs.length then
        let trip := s1.pred_history.getD s1.metric_xs.length (none, none, none)
        if s1.metric_name = ("disk_usage") then
          runTail Seg s1 xs_raw y_new none trip.2.1 (some 80)
            (if (80 : ℚ) ≤ y_new then 1 else 0)
        else
          twoSidedTail Seg s1 xs_raw y_new trip
      else
        bootstrapStep Seg s1 xs_raw y_new

/-- Feed a list of scraped samples through run, stopping at the first
escaped exception. -/
def feed (F : Forecaster) (Seg : Segmenter) :
    MetricAnomalyDetector → List (ℕ × ℚ) → Option MetricAnomalyDetector
  | s, [] => some s
  | s, q :: qs =>
    match runStep F Seg s q.1 q.2 with
    | RunResult.ok s' _ => feed F Seg s' qs
    | RunResult.exn _ => none

/-- The payload emitted for the sample (t, y) after first feeding pre. -/
def runAt (F : Forecaster) (Seg : Segmenter) (s : MetricAnomalyDetector)
    (pre : List (ℕ × ℚ)) (t : ℕ) (y : ℚ) : Option Payload :=
  match feed F Seg s pre with
  | some s' => (runStep F Seg s' t y).payload
  | none => none

/-- Abbreviation for the state left by a successful train_and_predict. -/
def afterTrain (s : MetricAnomalyDetector) (p lo hi : ℚ) : MetricAnomalyDetector :=
  { s with start_index := rollingStart s,
           pred_history := s.pred_history ++ [(some p, some lo, some hi)] }

lemma maybeCPD_metric_xs (Seg : Segmenter) (s : MetricAnomalyDetector) :
    (maybeCPD Seg s).metric_xs = s.metric_xs := by
  unfold maybeCPD change_point_detection; split <;> rfl

lemma maybeCPD_metric_y (Seg : Segmenter) (s : MetricAnomalyDetector) :
    (maybeCPD Seg s).metric_y = s.metric_y := by
  unfold maybeCPD change_point_detection; split <;> rfl

lemma maybeCPD_metric_rawy (Seg : Segmenter) (s : MetricAnomalyDetector) :
    (maybeCPD Seg s).metric_rawy = s.metric_rawy := by
  unfold maybeCPD change_point_detection; split <;> rfl

lemma maybeCPD_pred_history (Seg : Segmenter) (s : MetricAnomalyDetector) :
    (maybeCPD Seg s).pred_history = s.pred_history := by
  unfold maybeCPD change_point_detection; split <;> rfl

lemma maybeCPD_anomaly_history (Seg : Segmenter) (s : MetricAnomalyDetector) :
    (maybeCPD Seg s).anomaly_history = s.anomaly_history := by
  unfold maybeCPD change_point_detection; split <;> rfl

lemma maybeCPD_counter (Seg : Segmenter) (s : MetricAnomalyDetector) :
    (maybeCPD Seg s).alert_score_counter = s.alert_score_counter := by
  unfold maybeCPD change_point_detection; split <;> rfl

lemma maybeCPD_ast (Seg : Segmenter) (s : MetricAnomalyDetector) :
    (maybeCPD Seg s).anomaly_start_time = s.anomaly_start_time := by
  unfold maybeCPD change_point_detection; split <;> rfl

lemma maybeCPD_name (Seg : Segmenter) (s : MetricAnomalyDetector) :
    (maybeCPD Seg s).metric_name = s.metric_name := by
  unfold maybeCPD change_point_detection; split <;> rfl

lemma cpdNewStart_mono (Seg : Segmenter) (s : MetricAnomalyDetector) :
    s.start_index ≤ cpdNewStart Seg s := by
  unfold cpdNewStart
  split
  · split
    · exact Nat.le_add_right _ _
    · exact le_refl _
  · exact le_refl _

lemma maybeCPD_start_mono (Seg : Segmenter) (s : MetricAnomalyDetector) :
    s.start_index ≤ (maybeCPD Seg s).start_index := by
  unfold maybeCPD change_point_detection
  split
  · exact cpdNewStart_mono Seg s
  · exact le_refl _

lemma train_of_lt (F : Forecaster) (s : MetricAnomalyDetector)
    (h : s.metric_xs.length < MIN_TRAINING_SIZE) :
    train_and_predict F s = (s, false) := by
  unfold train_and_predict
  rw [if_neg (by omega)]

lemma train_of_some (F : Forecaster) (s : MetricAnomalyDetector) (p lo hi : ℚ)
    (hmin : MIN_TRAINING_SIZE ≤ s.metric_xs.length)
    (hF : F s.metric_xs s.metric_y (rollingStart s) = some (p, lo, hi)) :
    train_and_predict F s = (afterTrain s p lo hi, false) := by
  unfold train_and_predict afterTrain
  rw [if_pos hmin, hF]

lemma train_of_none (F : Forecaster) (s : MetricAnomalyDetector)
    (hmin : MIN_TRAINING_SIZE ≤ s.metric_xs.length)
    (hF : F s.metric_xs s.metric_y (rollingStart s) = none) :
    train_and_predict F s = ({ s with start_index := rollingStart s }, true) := by
  unfold train_and_predict
  rw [if_pos hmin, hF]

lemma train_false_inv (F : Forecaster) (s s1 : MetricAnomalyDetector)
    (h : train_and_predict F s = (s1, false)) :
    (s.metric_xs.length < MIN_TRAINING_SIZE ∧ s1 = s) ∨
    (MIN_TRAINING_SIZE ≤ s.metric_xs.length ∧ ∃ p lo hi,
      F s.metric_xs s.metric_y (rollingStart s) = some (p, lo, hi) ∧
      s1 = afterTrain s p lo hi) := by
  by_cases hmin : MIN_TRAINING_SIZE ≤ s.metric_xs.length
  · right
    rcases hF : F s.metric_xs s.metric_y (rollingStart s) with _ | ⟨p, lo, hi⟩
    · rw [train_of_none F s hmin hF] at h
      simp at h
    · rw [train_of_some F s p lo hi hmin hF] at h
      refine ⟨hmin, p, lo, hi, rfl, ?_⟩
      have := (Prod.mk.injEq _ _ _ _).mp h
      exact this.1.symm
  · left
    rw [train_of_lt F s (by omega)] at h
    have := (Prod.mk.injEq _ _ _ _).mp h
    exact ⟨by omega, this.1.symm⟩

lemma train_true_inv (F : Forecaster) (s s1 : MetricAnomalyDetector)
    (h : train_and_predict F s = (s1, true)) :
    MIN_TRAINING_SIZE ≤ s.metric_xs.length ∧
    F s.metric_xs s.metric_y (rollingStart s) = none ∧
    s1 = { s with start_index := rollingStart s } := by
  by_cases hmin : MIN_TRAINING_SIZE ≤ s.metric_xs.length
  · rcases hF : F s.metric_xs s.metric_y (rollingStart s) with _ | ⟨p, lo, hi⟩
    · rw [train_of_none F s hmin hF] at h
      have h2 := (Prod.mk.injEq _ _ _ _).mp h
      exact ⟨hmin, rfl, h2.1.symm⟩
    · rw [train_of_some F s p lo hi hmin hF] at h
      simp at h
  · rw [train_of_lt F s (by omega)] at h
    simp at h

lemma getD_concat {α : Type} (l : List α) (a d : α) : (l ++ [a]).getD l.length d = a := by
  simp [List.getD, List.getElem?_concat_length]

lemma getD_zero (l : List ℕ) (h : ∀ a ∈ l, a = 0) (i : ℕ) : l.getD i 0 = 0 := by
  rcases Nat.lt_or_ge i l.length with hi | hi
  · rw [List.getD_eq_getElem l 0 hi]
    exact h _ (List.getElem_mem hi)
  · exact List.getD_eq_default l 0 hi

lemma runStep_of_mem (F : Forecaster) (Seg : Segmenter) (s : MetricAnomalyDetector)
    (t : ℕ) (y : ℚ) (h : normTs t ∈ s.metric_xs) :
    runStep F Seg s t y = RunResult.ok s none := by
  simp [runStep, h]

lemma runStep_boot (F : Forecaster) (Seg : Segmenter) (s : MetricAnomalyDetector)
    (t : ℕ) (y : ℚ) (hdup : normTs t ∉ s.metric_xs)
    (hlt : s.metric_xs.length < MIN_TRAINING_SIZE) :
    runStep F Seg s t y = bootstrapStep Seg s (normTs t) y := by
  simp only [runStep, train_of_lt F s hlt]
  rw [if_neg hdup, if_neg (by omega)]

lemma runStep_exn_of_none (F : Forecaster) (Seg : Segmenter) (s : MetricAnomalyDetector)
    (t : ℕ) (y : ℚ) (hdup : normTs t ∉ s.metric_xs)
    (hmin : MIN_TRAINING_SIZE ≤ s.metric_xs.length)
    (hF : F s.metric_xs s.metric_y (rollingStart s) = none) :
    runStep F Seg s t y = RunResult.exn { s with start_index := rollingStart s } := by
  simp only [runStep, train_of_none F s hmin hF]
  rw [if_neg hdup]

lemma runStep_active_some (F : Forecaster) (Seg : Segmenter) (s : MetricAnomalyDetector)
    (t : ℕ) (y : ℚ) (p lo hi : ℚ) (hdup : normTs t ∉ s.metric_xs)
    (hmin : MIN_TRAINING_SIZE ≤ s.metric_xs.length)
    (hplen : s.pred_history.length = s.metric_xs.length)
    (hF : F s.metric_xs s.metric_y (rollingStart s) = some (p, lo, hi)) :
    runStep F Seg s t y =
      (if s.metric_name = ("disk_usage") then
        runTail Seg (afterTrain s p lo hi) (normTs t) y none (some lo) (some 80)
          (if (80 : ℚ) ≤ y then 1 else 0)
      else
        twoSidedTail Seg (afterTrain s p lo hi) (normTs t) y
          (some p, some lo, some hi)) := by
  have hx : (afterTrain s p lo hi).metric_xs = s.metric_xs := rfl
  have htrip : (afterTrain s p lo hi).pred_history.getD
      (afterTrain s p lo hi).metric_xs.length (none, none, none)
      = (some p, some lo, some hi) := by
    show (s.pred_history ++ [(some p, some lo, some hi)]).getD s.metric_xs.length _ = _
    rw [← hplen]
    exact getD_concat _ _ _
  simp only [runStep, train_of_some F s p lo hi hmin hF]
  rw [if_neg hdup, if_pos (by rw [hx]; exact hmin)]
  rw [htrip]
  rfl

lemma twoSidedTail_some (Seg : Segmenter) (s1 : MetricAnomalyDetector)
    (a : ℕ) (b : ℚ) (p lo hi : ℚ) :
    twoSidedTail Seg s1 a b (some p, some lo, some hi) =
      if b < lo then runTail Seg s1 a b (some p) (some lo) (some hi) 1
      else runTail Seg s1 a b (some p) (some lo) (some hi)
        (if hi < b then 1 else 0) := rfl

lemma twoSidedTail_cases (Seg : Segmenter) (s1 : MetricAnomalyDetector)
    (a : ℕ) (b : ℚ) (trip : Option ℚ × Option ℚ × Option ℚ) :
    twoSidedTail Seg s1 a b trip = RunResult.exn s1 ∨
    ∃ lo ia, trip.2.1 = some lo ∧
      twoSidedTail Seg s1 a b trip =
        runTail Seg s1 a b trip.1 (some lo) trip.2.2 ia := by
  rcases trip with ⟨yp, ypl, yph⟩
  rcases ypl with _ | lo
  · left
    rfl
  · rcases yph with _ | hi
    · by_cases hy : b < lo
      · right
        exact ⟨lo, 1, rfl, by simp [twoSidedTail, hy]⟩
      · left
        simp [twoSidedTail, hy]
    · by_cases hy : b < lo
      · right
        exact ⟨lo, 1, rfl, by simp [twoSidedTail, hy]⟩
      · right
        exact ⟨lo, if hi < b then 1 else 0, rfl, by simp [twoSidedTail, hy]⟩

lemma maybeCPD_of_zero (Seg : Segmenter) (s : MetricAnomalyDetector)
    (h : ∀ a ∈ s.anomaly_history, a = 0) : maybeCPD Seg s = s := by
  unfold maybeCPD
  rw [if_neg]
  rintro ⟨-, h1, -⟩
  rw [getD_zero _ h] at h1
  simp at h1

lemma zero_append {l : List ℕ} (h : ∀ a ∈ l, a = 0) :
    ∀ a ∈ l ++ [0], a = 0 := by
  intro a ha
  rcases List.mem_append.mp ha with ha | ha
  · exact h a ha
  · simpa using ha

lemma getElem_not_mem_take {l : List ℕ} (h : List.Pairwise (· < ·) l)
    (i : ℕ) (hi : i < l.length) : l.get ⟨i, hi⟩ ∉ l.take i := by
  intro hmem
  have hp : List.Pairwise (· < ·) (l.take i ++ l.drop i) := by
    rw [List.take_append_drop]; exact h
  rw [List.pairwise_append] at hp
  have hd : l.get ⟨i, hi⟩ ∈ l.drop i := by
    rw [List.drop_eq_get_cons hi]
    exact List.mem_cons_self _ _
  exact lt_irrefl _ (hp.2.2 _ hmem _ hd)

lemma feed_boot (F : Forecaster) (Seg : Segmenter) (pts : List (ℕ × ℚ)) :
    ∀ s : MetricAnomalyDetector,
      s.metric_xs.length + pts.length ≤ MIN_TRAINING_SIZE →
      (∀ a ∈ s.anomaly_history, a = 0) →
      List.Pairwise (· < ·) (s.metric_xs ++ pts.map (fun q => normTs q.1)) →
      feed F Seg s pts = some
        { s with metric_xs := s.metric_xs ++ pts.map (fun q => normTs q.1),
                 metric_y := s.metric_y ++ pts.map Prod.snd,
                 metric_rawy := s.metric_rawy ++ pts.map Prod.snd,
                 pred_history := s.pred_history ++
                   List.replicate pts.length (none, none, none),
                 anomaly_history := s.anomaly_history ++
                   List.replicate pts.length 0 } := by
  induction pts with
  | nil => intro s _ _ _; simp [feed]
  | cons q ps ih =>
    rcases q with ⟨t, y⟩
    intro s hlen hzero hpair
    have hdup : normTs t ∉ s.metric_xs := by
      rw [List.pairwise_append] at hpair
      intro hmem
      exact lt_irrefl _ (hpair.2.2 _ hmem (normTs t) (by simp))
    have hlt : s.metric_xs.length < MIN_TRAINING_SIZE := by
      simp only [List.length_cons] at hlen; omega
    have hstep := runStep_boot F Seg s t y hdup hlt
    have hnoCPD : maybeCPD Seg (bootState s (normTs t) y) = bootState s (normTs t) y :=
      maybeCPD_of_zero Seg _ (zero_append hzero)
    have hrec := ih (bootState s (normTs t) y)
      (by
        show (s.metric_xs ++ [normTs t]).length + ps.length ≤ MIN_TRAINING_SIZE
        rw [List.length_append]
        simp only [List.length_cons] at hlen
        simp only [List.length_singleton]
        omega)
      (zero_append hzero)
      (by simpa [bootState, List.append_assoc] using hpair)
    rw [feed, hstep]
    show feed F Seg (maybeCPD Seg (bootState s (normTs t) y)) ps = _
    rw [hnoCPD, hrec]
    simp [bootState, List.replicate_succ, List.append_assoc]

lemma rollingStart_mono (s : MetricAnomalyDetector) : s.start_index ≤ rollingStart s := by
  unfold rollingStart; split <;> omega

lemma rollingStart_le (s : MetricAnomalyDetector)
    (hs : s.start_index ≤ s.metric_y.length) : rollingStart s ≤ s.metric_y.length := by
  unfold rollingStart; split <;> omega

lemma rollingStart_window (s : MetricAnomalyDetector) :
    s.metric_y.length - rollingStart s ≤ ROLLING_TRAINING_SIZE := by
  unfold rollingStart; split <;> omega

lemma train_start (F : Forecaster) (s : MetricAnomalyDetector) :
    (train_and_predict F s).1.start_index =
      if MIN_TRAINING_SIZE ≤ s.metric_xs.length then rollingStart s
      else s.start_index := by
  unfold train_and_predict
  split
  · split <;> rfl
  · rfl

lemma cpdNewStart_le (Seg : Segmenter) (s : MetricAnomalyDetector)
    (hs : s.start_index ≤ s.metric_y.length) :
    cpdNewStart Seg s ≤ s.metric_y.length := by
  unfold cpdNewStart
  split
  · rename_i hlen2
    split
    · rename_i l hl
      have hpl := List.find?_some hl
      simp only [decide_eq_true_eq] at hpl
      rw [List.length_drop] at hpl hlen2
      simp only [CPD_TRACE_BACK_TIME] at hpl hlen2
      omega
    · exact hs
  · exact hs

lemma runTail_start_mono (Seg : Segmenter) (s1 : MetricAnomalyDetector)
    (a : ℕ) (b : ℚ) (yp ypl yph : Option ℚ) (ia : ℕ) :
    s1.start_index ≤ ((runTail Seg s1 a b yp ypl yph ia).state).start_index :=
  maybeCPD_start_mono Seg (tailState s1 a b ypl yph ia)

lemma bootstrapStep_start_mono (Seg : Segmenter) (s1 : MetricAnomalyDetector)
    (a : ℕ) (b : ℚ) :
    s1.start_index ≤ ((bootstrapStep Seg s1 a b).state).start_index :=
  maybeCPD_start_mono Seg (bootState s1 a b)

lemma twoSidedTail_start_mono (Seg : Segmenter) (s1 : MetricAnomalyDetector)
    (a : ℕ) (b : ℚ) (trip : Option ℚ × Option ℚ × Option ℚ) :
    s1.start_index ≤ ((twoSidedTail Seg s1 a b trip).state).start_index := by
  rcases twoSidedTail_cases Seg s1 a b trip with h | ⟨lo, ia, -, h⟩
  · rw [h]
    exact le_refl _
  · rw [h]
    exact runTail_start_mono Seg s1 _ _ _ _ _ _

lemma runStep_start_mono (F : Forecaster) (Seg : Segmenter)
    (s : MetricAnomalyDetector) (t : ℕ) (y : ℚ) :
    s.start_index ≤ ((runStep F Seg s t y).state).start_index := by
  simp only [runStep]
  split
  · exact le_refl _
  · rcases htr : train_and_predict F s with ⟨s1, b⟩
    have hs1 : s.start_index ≤ s1.start_index := by
      cases b
      · rcases train_false_inv F s s1 htr with ⟨-, rfl⟩ | ⟨-, p, lo, hi, -, rfl⟩
        · exact le_refl _
        · exact rollingStart_mono s
      · obtain ⟨-, -, rfl⟩ := train_true_inv F s s1 htr
        exact rollingStart_mono s
    refine le_trans hs1 ?_
    split
    · rename_i s2 heq
      injection heq with h1 h2
      subst h1
      exact le_refl _
    · rename_i s2 heq
      injection heq with h1 h2
      subst h1
      split
      · split
        · exact runTail_start_mono Seg s1 _ _ _ _ _ _
        · exact twoSidedTail_start_mono Seg s1 _ _ _
      · exact bootstrapStep_start_mono Seg s1 _ _

/-- A concrete one-point detector state used to instantiate theorems. -/
def dupSample : MetricAnomalyDetector :=
  { cluster_id := "c", metric_name := "cpu_usage", metric_xs := [60],
    metric_y := [5], metric_rawy := [5], pred_history := [(none, none, none)],
    alert_score_counter := 0, anomaly_history := [0], start_index := 0,
    anomaly_start_time := none }

/-- Claim C2: a point whose interval-normalized timestamp is already in
the buffer is rejected: run returns no Evaluation and the whole detector
state (every parallel sequence, the alert score and the alert start time)
is returned unchanged. -/
theorem C2_duplicate_timestamp_rejected (F : Forecaster) (Seg : Segmenter)
    (s : MetricAnomalyDetector) (t : ℕ) (y : ℚ)
    (h : normTs t ∈ s.metric_xs) :
    runStep F Seg s t y = RunResult.ok s none ∧
    (runStep F Seg s t y).state = s ∧
    (runStep F Seg s t y).payload = none := by
  rw [runStep_of_mem F Seg s t y h]
  exact ⟨rfl, rfl, rfl⟩

/-- Concrete instantiation of C2: a detector holding timestamp 60 rejects
a new sample with raw timestamp 90 (normalized 60). -/
theorem C2_witness :
    runStep (fun _ _ _ => none) (fun _ => []) dupSample 90 5 =
      RunResult.ok dupSample none ∧
    (runStep (fun _ _ _ => none) (fun _ => []) dupSample 90 5).state = dupSample ∧
    (runStep (fun _ _ _ => none) (fun _ => []) dupSample 90 5).payload = none :=
  C2_duplicate_timestamp_rejected _ _ dupSample 90 5 (by decide)

/-- Claim C6: the training-window start is never decreased, stays within
the buffer bounds, and after the rolling-window recompute of
train_and_predict the trailing window has at most ROLLING_TRAINING_SIZE
elements; the change-point adjustment is likewise monotone and in-bounds;
hence a whole run tick never decreases it either. -/
theorem C6_window_start_invariant (F : Forecaster) (Seg : Segmenter)
    (s : MetricAnomalyDetector) (hs : s.start_index ≤ s.metric_y.length) :
    s.start_index ≤ (train_and_predict F s).1.start_index ∧
    (train_and_predict F s).1.start_index ≤ s.metric_y.length ∧
    (MIN_TRAINING_SIZE ≤ s.metric_xs.length →
      s.metric_y.length - (train_and_predict F s).1.start_index ≤ ROLLING_TRAINING_SIZE) ∧
    s.start_index ≤ (change_point_detection Seg s).start_index ∧
    (change_point_detection Seg s).start_index ≤ s.metric_y.length ∧
    ∀ t : ℕ, ∀ y : ℚ, s.start_index ≤ ((runStep F Seg s t y).state).start_index := by
  rw [train_start F s]
  refine ⟨?_, ?_, ?_, cpdNewStart_mono Seg s, cpdNewStart_le Seg s hs, ?_⟩
  · split
    · exact rollingStart_mono s
    · exact le_refl _
  · split
    · exact rollingStart_le s hs
    · exact hs
  · intro hmin
    rw [if_pos hmin]
    exact rollingStart_window s
  · intro t y
    exact runStep_start_mono F Seg s t y

/-- Iterate the accumulator step over a run of ticks that all carry the
same anomaly flag and tick time. -/
def alertRun (flag : ℕ) (now : ℕ) : ℕ → ℤ × Option ℕ → ℤ × Option ℕ
  | 0, st => st
  | n + 1, st => alertRun flag now n (alertStep st.1 st.2 flag now)

lemma alertStep_anom (c : ℤ) (a : Option ℕ) (now : ℕ) :
    alertStep c a 1 now = (c + 1, if c = 0 then some now else a) := by
  unfold alertStep
  simp

lemma alertStep_norm (c : ℤ) (a : Option ℕ) (now : ℕ) :
    alertStep c a 0 now =
      if 0 < c then (if c - 2 ≤ 0 then (0, none) else (c - 2, a))
      else (c, a) := by
  unfold alertStep
  simp

lemma alertStep_not_anom (c : ℤ) (a : Option ℕ) (now : ℕ) (ia : ℕ) (hia : ia ≠ 1) :
    alertStep c a ia now =
      if 0 < c then (if c - 2 ≤ 0 then ((0 : ℤ), (none : Option ℕ)) else (c - 2, a))
      else (c, a) := by
  unfold alertStep
  rw [if_neg hia]

lemma alertRun_anom_pos (now : ℕ) :
    ∀ (i : ℕ) (c : ℤ) (a : Option ℕ), 0 < c →
      alertRun 1 now i (c, a) = (c + i, a) := by
  intro i
  induction i with
  | zero => intro c a _; simp [alertRun]
  | succ n ih =>
    intro c a hc
    rw [alertRun, alertStep_anom]
    show alertRun 1 now n (c + 1, if c = 0 then some now else a) = _
    rw [if_neg (by omega), ih (c + 1) a (by omega)]
    have hcast : c + 1 + (n : ℤ) = c + ((n + 1 : ℕ) : ℤ) := by push_cast; ring
    rw [hcast]

lemma alertRun_anom_from_zero (now : ℕ) (i : ℕ) :
    alertRun 1 now i (0, none) =
      ((i : ℤ), if i = 0 then none else some now) := by
  cases i with
  | zero => simp [alertRun]
  | succ n =>
    rw [alertRun, alertStep_anom, if_pos rfl]
    show alertRun 1 now n (0 + 1, some now) = _
    rw [show ((0 : ℤ) + 1) = 1 by ring, alertRun_anom_pos now n 1 (some now) one_pos]
    simp
    ring

lemma alertRun_norm_zero (now : ℕ) :
    ∀ i : ℕ, alertRun 0 now i (0, (none : Option ℕ)) = (0, none) := by
  intro i
  induction i with
  | zero => rfl
  | succ n ih =>
    rw [alertRun, alertStep_norm]
    simpa using ih

lemma alertRun_norm_pos (now t0 : ℕ) :
    ∀ (i : ℕ) (c : ℤ), 0 < c →
      alertRun 0 now i (c, some t0) =
        if c - 2 * (i : ℤ) ≤ 0 ∧ 0 < i then (0, none)
        else (c - 2 * i, some t0) := by
  intro i
  induction i with
  | zero =>
    intro c hc
    rw [if_neg (by omega)]
    simp [alertRun]
  | succ n ih =>
    intro c hc
    rw [alertRun, alertStep_norm, if_pos hc]
    by_cases h2 : c - 2 ≤ 0
    · rw [if_pos h2]
      show alertRun 0 now n (0, none) = _
      rw [alertRun_norm_zero now n, if_pos (by
        refine ⟨?_, ?_⟩
        · push_cast
          omega
        · omega)]
    · rw [if_neg h2]
      show alertRun 0 now n (c - 2, some t0) = _
      rw [ih (c - 2) (by omega)]
      have hcast : c - 2 - 2 * (n : ℤ) = c - 2 * ((n + 1 : ℕ) : ℤ) := by push_cast; ring
      by_cases h3 : c - 2 - 2 * (n : ℤ) ≤ 0 ∧ 0 < n
      · rw [if_pos h3, if_pos (by push_cast at h3 ⊢; omega)]
      · rw [if_neg h3, if_neg (by push_cast at h3 ⊢; omega), hcast]

/-- Claim C7: starting from score 0, a run of k consecutive anomalous
ticks drives the score to i after i ticks (hence it reaches
min(k, threshold) within the run); a subsequent run of normal ticks
decreases the score by 2 per tick floored at 0, and the alert start time
is none exactly when the score is 0. -/
theorem C7_accumulator_profile (k j now : ℕ) :
    (∀ i : ℕ, (alertRun 1 now i (0, none)).1 = (i : ℤ)) ∧
    (min k ALERT_SCORE_THRESHOLD.toNat ≤ k ∧
      (alertRun 1 now (min k ALERT_SCORE_THRESHOLD.toNat) (0, none)).1 =
        min (k : ℤ) ALERT_SCORE_THRESHOLD) ∧
    (∀ i : ℕ, i ≤ j →
      (alertRun 0 now i (alertRun 1 now k (0, none))).1 =
          max ((k : ℤ) - 2 * i) 0 ∧
        ((alertRun 0 now i (alertRun 1 now k (0, none))).2 = none ↔
          (alertRun 0 now i (alertRun 1 now k (0, none))).1 = 0)) := by
  refine ⟨?_, ⟨Nat.min_le_left _ _, ?_⟩, ?_⟩
  · intro i
    rw [alertRun_anom_from_zero now i]
  · rw [alertRun_anom_from_zero now _]
    show ((min k ALERT_SCORE_THRESHOLD.toNat : ℕ) : ℤ) = _
    rw [Nat.cast_min]
    norm_num [ALERT_SCORE_THRESHOLD]
  · intro i _
    rcases Nat.eq_zero_or_pos k with hk | hk
    · subst hk
      rw [show alertRun 1 now 0 (0, none) = ((0 : ℤ), (none : Option ℕ)) from rfl,
        alertRun_norm_zero now i]
      constructor
      · show (0 : ℤ) = _
        omega
      · simp
    · rw [alertRun_anom_from_zero now k, if_neg (by omega),
        alertRun_norm_pos now now i (k : ℤ) (by exact_mod_cast hk)]
      by_cases hcase : (k : ℤ) - 2 * (i : ℤ) ≤ 0 ∧ 0 < i
      · rw [if_pos hcase]
        constructor
        · show (0 : ℤ) = _
          omega
        · simp
      · rw [if_neg hcase]
        constructor
        · show (k : ℤ) - 2 * (i : ℤ) = _
          omega
        · simp
          omega

lemma tailPayload_alert_score (s1 : MetricAnomalyDetector) (a : ℕ) (b : ℚ)
    (yp ypl yph : Option ℚ) (ia : ℕ) :
    (tailPayload s1 a b yp ypl yph ia).alert_score =
      (alertStep s1.alert_score_counter s1.anomaly_start_time ia a).1 := rfl

lemma tailPayload_is_alert (s1 : MetricAnomalyDetector) (a : ℕ) (b : ℚ)
    (yp ypl yph : Option ℚ) (ia : ℕ) :
    (tailPayload s1 a b yp ypl yph ia).is_alert =
      if ALERT_SCORE_THRESHOLD ≤
          (alertStep s1.alert_score_counter s1.anomaly_start_time ia a).1
      then 1 else 0 := rfl

lemma tailPayload_is_anomaly (s1 : MetricAnomalyDetector) (a : ℕ) (b : ℚ)
    (yp ypl yph : Option ℚ) (ia : ℕ) :
    (tailPayload s1 a b yp ypl yph ia).is_anomaly = ia := rfl

/-- Claim C1: on every Active-state tick (the tail of run after is_anomaly
is decided), an anomalous tick sets the alert start to the tick timestamp
when the score was 0 and increments the score by 1; a normal tick
decrements a positive score by 2 floored at 0, clearing the alert start
exactly when the floor is reached; the emitted payload reports the
resulting score, and is_alert is 1 iff that score is at least
ALERT_SCORE_THRESHOLD. -/
theorem C1_alert_scorer_tick (Seg : Segmenter) (s1 : MetricAnomalyDetector)
    (xs_raw : ℕ) (y_new : ℚ) (yp ypl yph : Option ℚ) (ia : ℕ)
    (hc : 0 ≤ s1.alert_score_counter)
    (hinv : 0 < s1.alert_score_counter → s1.anomaly_start_time ≠ none) :
    ∃ s3 pl, runTail Seg s1 xs_raw y_new yp ypl yph ia = RunResult.ok s3 (some pl) ∧
      (ia = 1 →
        s3.alert_score_counter = s1.alert_score_counter + 1 ∧
        (s1.alert_score_counter = 0 → s3.anomaly_start_time = some xs_raw) ∧
        (s1.alert_score_counter ≠ 0 →
          s3.anomaly_start_time = s1.anomaly_start_time)) ∧
      (ia ≠ 1 →
        s3.alert_score_counter = max (s1.alert_score_counter - 2) 0 ∧
        (0 < s1.alert_score_counter →
          (s3.anomaly_start_time = none ↔ s3.alert_score_counter = 0)) ∧
        (s1.alert_score_counter = 0 →
          s3.anomaly_start_time = s1.anomaly_start_time)) ∧
      pl.alert_score = s3.alert_score_counter ∧
      pl.is_anomaly = ia ∧
      (pl.is_alert = 1 ↔ ALERT_SCORE_THRESHOLD ≤ s3.alert_score_counter) ∧
      (0 < s3.alert_score_counter → s3.anomaly_start_time ≠ none) := by
  have hc3 : (maybeCPD Seg (tailState s1 xs_raw y_new ypl yph ia)).alert_score_counter
      = (alertStep s1.alert_score_counter s1.anomaly_start_time ia xs_raw).1 := by
    rw [maybeCPD_counter]
    rfl
  have ha3 : (maybeCPD Seg (tailState s1 xs_raw y_new ypl yph ia)).anomaly_start_time
      = (alertStep s1.alert_score_counter s1.anomaly_start_time ia xs_raw).2 := by
    rw [maybeCPD_ast]
    rfl
  refine ⟨_, _, rfl, ?_, ?_, ?_, ?_, ?_, ?_⟩
  · intro hia
    subst hia
    rw [alertStep_anom] at hc3 ha3
    refine ⟨hc3, ?_, ?_⟩
    · intro h0
      rw [ha3]
      show (if s1.alert_score_counter = 0 then some xs_raw else s1.anomaly_start_time) = _
      rw [if_pos h0]
    · intro h0
      rw [ha3]
      show (if s1.alert_score_counter = 0 then some xs_raw else s1.anomaly_start_time) = _
      rw [if_neg h0]
  · intro hia
    rw [alertStep_not_anom _ _ _ _ hia] at hc3 ha3
    by_cases hpos : 0 < s1.alert_score_counter
    · rw [if_pos hpos] at hc3 ha3
      by_cases h2 : s1.alert_score_counter - 2 ≤ 0
      · rw [if_pos h2] at hc3 ha3
        refine ⟨?_, ?_, ?_⟩
        · rw [hc3]
          exact (max_eq_right h2).symm
        · intro _
          rw [ha3, hc3]
          simp
        · intro h0
          exact absurd h0 (by omega)
      · rw [if_neg h2] at hc3 ha3
        refine ⟨?_, ?_, ?_⟩
        · rw [hc3]
          exact (max_eq_left (by omega)).symm
        · intro _
          rw [ha3, hc3]
          constructor
          · intro hn
            exact absurd hn (hinv hpos)
          · intro hz
            exact absurd hz (by omega)
        · intro h0
          exact absurd h0 (by omega)
    · rw [if_neg hpos] at hc3 ha3
      refine ⟨?_, ?_, ?_⟩
      · rw [hc3]
        have h0 : s1.alert_score_counter = 0 := by omega
        rw [h0]
        exact (max_eq_right (by norm_num)).symm
      · intro hp
        exact absurd hp hpos
      · intro _
        rw [ha3]
  · rw [tailPayload_alert_score, hc3]
  · exact tailPayload_is_anomaly s1 xs_raw y_new yp ypl yph ia
  · rw [tailPayload_is_alert, hc3]
    split_ifs with h
    · simp [h]
    · simp [h]
  · intro hp
    rw [hc3] at hp
    rw [ha3]
    by_cases hia : ia = 1
    · subst hia
      rw [alertStep_anom] at hp ⊢
      show (if s1.alert_score_counter = 0 then some xs_raw else s1.anomaly_start_time) ≠ _
      by_cases h0 : s1.alert_score_counter = 0
      · rw [if_pos h0]
        simp
      · rw [if_neg h0]
        exact hinv (by omega)
    · rw [alertStep_not_anom _ _ _ _ hia] at hp ⊢
      by_cases hpos : 0 < s1.alert_score_counter
      · rw [if_pos hpos] at hp ⊢
        by_cases h2 : s1.alert_score_counter - 2 ≤ 0
        · rw [if_pos h2] at hp
          exact absurd hp (by omega)
        · rw [if_neg h2]
          exact hinv hpos
      · rw [if_neg hpos] at hp ⊢
        exact hinv hp

/-- Concrete instantiation of C1: an anomalous tick at time 120 on a
zero-score detector. -/
theorem C1_witness :
    ∃ s3 pl, runTail (fun _ => []) dupSample 120 50 none none none 1 =
        RunResult.ok s3 (some pl) ∧
      (1 = 1 →
        s3.alert_score_counter = dupSample.alert_score_counter + 1 ∧
        (dupSample.alert_score_counter = 0 → s3.anomaly_start_time = some 120) ∧
        (dupSample.alert_score_counter ≠ 0 →
          s3.anomaly_start_time = dupSample.anomaly_start_time)) ∧
      ((1 : ℕ) ≠ 1 →
        s3.alert_score_counter = max (dupSample.alert_score_counter - 2) 0 ∧
        (0 < dupSample.alert_score_counter →
          (s3.anomaly_start_time = none ↔ s3.alert_score_counter = 0)) ∧
        (dupSample.alert_score_counter = 0 →
          s3.anomaly_start_time = dupSample.anomaly_start_time)) ∧
      pl.alert_score = s3.alert_score_counter ∧
      pl.is_anomaly = 1 ∧
      (pl.is_alert = 1 ↔ ALERT_SCORE_THRESHOLD ≤ s3.alert_score_counter) ∧
      (0 < s3.alert_score_counter → s3.anomaly_start_time ≠ none) :=
  C1_alert_scorer_tick (fun _ => []) dupSample 120 50 none none none 1
    (by decide) (by decide)

/-- Concrete instantiation of C6: window bounds for a fresh detector. -/
theorem C6_witness :
    (freshDetector ("cpu_usage") ("c")).start_index ≤
      (train_and_predict (fun _ _ _ => none) (freshDetector ("cpu_usage") ("c"))).1.start_index ∧
    (train_and_predict (fun _ _ _ => none) (freshDetector ("cpu_usage") ("c"))).1.start_index ≤
      (freshDetector ("cpu_usage") ("c")).metric_y.length ∧
    (MIN_TRAINING_SIZE ≤ (freshDetector ("cpu_usage") ("c")).metric_xs.length →
      (freshDetector ("cpu_usage") ("c")).metric_y.length -
        (train_and_predict (fun _ _ _ => none) (freshDetector ("cpu_usage") ("c"))).1.start_index ≤
        ROLLING_TRAINING_SIZE) ∧
    (freshDetector ("cpu_usage") ("c")).start_index ≤
      (change_point_detection (fun _ => []) (freshDetector ("cpu_usage") ("c"))).start_index ∧
    (change_point_detection (fun _ => []) (freshDetector ("cpu_usage") ("c"))).start_index ≤
      (freshDetector ("cpu_usage") ("c")).metric_y.length ∧
    ∀ t : ℕ, ∀ y : ℚ,
      (freshDetector ("cpu_usage") ("c")).start_index ≤
        ((runStep (fun _ _ _ => none) (fun _ => [])
          (freshDetector ("cpu_usage") ("c")) t y).state).start_index :=
  C6_window_start_invariant (fun _ _ _ => none) (fun _ => [])
    (freshDetector ("cpu_usage") ("c")) (by decide)

/-- Concrete instantiation of C7: seven anomalous ticks then two normal
ticks from score zero. -/
theorem C7_witness :
    (alertRun 0 120 2 (alertRun 1 120 7 (0, none))).1 =
        max (((7 : ℕ) : ℤ) - 2 * ((2 : ℕ) : ℤ)) 0 ∧
      ((alertRun 0 120 2 (alertRun 1 120 7 (0, none))).2 = none ↔
        (alertRun 0 120 2 (alertRun 1 120 7 (0, none))).1 = 0) :=
  (C7_accumulator_profile 7 4 120).2.2 2 (by decide)

lemma tailPayload_yhat (s1 : MetricAnomalyDetector) (a : ℕ) (b : ℚ)
    (yp ypl yph : Option ℚ) (ia : ℕ) :
    (tailPayload s1 a b yp ypl yph ia).yhat =
      if truthyQ yp then yp.getD 0 else b := rfl

lemma tailPayload_yhat_lower (s1 : MetricAnomalyDetector) (a : ℕ) (b : ℚ)
    (yp ypl yph : Option ℚ) (ia : ℕ) :
    (tailPayload s1 a b yp ypl yph ia).yhat_lower =
      if truthyQ ypl then min (max 0 (ypl.getD 0)) 100 else b := rfl

lemma tailPayload_yhat_upper (s1 : MetricAnomalyDetector) (a : ℕ) (b : ℚ)
    (yp ypl yph : Option ℚ) (ia : ℕ) :
    (tailPayload s1 a b yp ypl yph ia).yhat_upper =
      if truthyQ yph then min (max (yph.getD 0) 0) 100 else b := rfl

lemma tailPayload_yhat_none (s1 : MetricAnomalyDetector) (a : ℕ) (b : ℚ)
    (ypl yph : Option ℚ) (ia : ℕ) :
    (tailPayload s1 a b none ypl yph ia).yhat = b := by
  rw [tailPayload_yhat]
  simp [truthyQ]

lemma tailPayload_lower_some (s1 : MetricAnomalyDetector) (a : ℕ) (b : ℚ)
    (yp yph : Option ℚ) (lo : ℚ) (ia : ℕ) :
    (tailPayload s1 a b yp (some lo) yph ia).yhat_lower =
      if lo = 0 then b else min (max 0 lo) 100 := by
  rw [tailPayload_yhat_lower]
  simp only [truthyQ, decide_eq_true_eq, Option.getD_some]
  by_cases h : lo = 0
  · rw [if_neg (by simp [h]), if_pos h]
  · rw [if_pos h, if_neg h]

lemma tailPayload_upper_some (s1 : MetricAnomalyDetector) (a : ℕ) (b : ℚ)
    (yp ypl : Option ℚ) (hi : ℚ) (ia : ℕ) :
    (tailPayload s1 a b yp ypl (some hi) ia).yhat_upper =
      if hi = 0 then b else min (max hi 0) 100 := by
  rw [tailPayload_yhat_upper]
  simp only [truthyQ, decide_eq_true_eq, Option.getD_some]
  by_cases h : hi = 0
  · rw [if_neg (by simp [h]), if_pos h]
  · rw [if_pos h, if_neg h]

/-- Claim C8: for an Active-state disk_usage tick the anomaly judgment is
observed >= 80, independent of whatever the forecaster returned. -/
theorem C8_one_sided_disk (F : Forecaster) (Seg : Segmenter)
    (s : MetricAnomalyDetector) (t : ℕ) (y : ℚ) (p lo hi : ℚ)
    (hdup : normTs t ∉ s.metric_xs)
    (hmin : MIN_TRAINING_SIZE ≤ s.metric_xs.length)
    (hplen : s.pred_history.length = s.metric_xs.length)
    (hname : s.metric_name = ("disk_usage"))
    (hF : F s.metric_xs s.metric_y (rollingStart s) = some (p, lo, hi)) :
    ∃ s' pl, runStep F Seg s t y = RunResult.ok s' (some pl) ∧
      pl.is_anomaly = (if (80 : ℚ) ≤ y then 1 else 0) ∧
      (pl.is_anomaly = 1 ↔ (80 : ℚ) ≤ y) := by
  rw [runStep_active_some F Seg s t y p lo hi hdup hmin hplen hF, if_pos hname]
  refine ⟨_, _, rfl, rfl, ?_⟩
  rw [tailPayload_is_anomaly]
  by_cases h : (80 : ℚ) ≤ y
  · rw [if_pos h]
    simpa using h
  · rw [if_neg h]
    simp [h]

/-- Amended claim C9: the reported band edges are clamped into [0, 100]
when the corresponding model band value is nonzero; a band value of
exactly 0 is falsy in Python, so the observed value is passed through
unclamped in its place; for disk_usage the reported upper edge is the
fixed bound 80. -/
theorem C9_band_clamping (F : Forecaster) (Seg : Segmenter)
    (s : MetricAnomalyDetector) (t : ℕ) (y : ℚ) (p lo hi : ℚ)
    (hdup : normTs t ∉ s.metric_xs)
    (hmin : MIN_TRAINING_SIZE ≤ s.metric_xs.length)
    (hplen : s.pred_history.length = s.metric_xs.length)
    (hF : F s.metric_xs s.metric_y (rollingStart s) = some (p, lo, hi)) :
    ∃ s' pl, runStep F Seg s t y = RunResult.ok s' (some pl) ∧
      (lo ≠ 0 → pl.yhat_lower = min (max 0 lo) 100 ∧
        0 ≤ pl.yhat_lower ∧ pl.yhat_lower ≤ 100) ∧
      (lo = 0 → pl.yhat_lower = y) ∧
      (s.metric_name ≠ ("disk_usage") → hi ≠ 0 →
        pl.yhat_upper = min (max hi 0) 100 ∧
        0 ≤ pl.yhat_upper ∧ pl.yhat_upper ≤ 100) ∧
      (s.metric_name ≠ ("disk_usage") → hi = 0 → pl.yhat_upper = y) ∧
      (s.metric_name = ("disk_usage") → pl.yhat_upper = 80) := by
  rw [runStep_active_some F Seg s t y p lo hi hdup hmin hplen hF]
  by_cases hname : s.metric_name = ("disk_usage")
  · rw [if_pos hname]
    refine ⟨_, _, rfl, ?_, ?_, ?_, ?_, ?_⟩
    · intro hlo
      rw [tailPayload_lower_some, if_neg hlo]
      exact ⟨rfl, le_min (le_max_left _ _) (by norm_num), min_le_right _ _⟩
    · intro hlo
      rw [tailPayload_lower_some, if_pos hlo]
    · intro hnd _
      exact absurd hname hnd
    · intro hnd _
      exact absurd hname hnd
    · intro _
      rw [tailPayload_upper_some, if_neg (by norm_num)]
      rw [max_eq_left (by norm_num), min_eq_left (by norm_num)]
  · rw [if_neg hname, twoSidedTail_some]
    by_cases hy : y < lo
    · rw [if_pos hy]
      refine ⟨_, _, rfl, ?_, ?_, ?_, ?_, ?_⟩
      · intro hlo
        rw [tailPayload_lower_some, if_neg hlo]
        exact ⟨rfl, le_min (le_max_left _ _) (by norm_num), min_le_right _ _⟩
      · intro hlo
        rw [tailPayload_lower_some, if_pos hlo]
      · intro _ hhi
        rw [tailPayload_upper_some, if_neg hhi]
        exact ⟨rfl, le_min (le_max_right _ _) (by norm_num), min_le_right _ _⟩
      · intro _ hhi
        rw [tailPayload_upper_some, if_pos hhi]
      · intro h
        exact absurd h hname
    · rw [if_neg hy]
      refine ⟨_, _, rfl, ?_, ?_, ?_, ?_, ?_⟩
      · intro hlo
        rw [tailPayload_lower_some, if_neg hlo]
        exact ⟨rfl, le_min (le_max_left _ _) (by norm_num), min_le_right _ _⟩
      · intro hlo
        rw [tailPayload_lower_some, if_pos hlo]
      · intro _ hhi
        rw [tailPayload_upper_some, if_neg hhi]
        exact ⟨rfl, le_min (le_max_right _ _) (by norm_num), min_le_right _ _⟩
      · intro _ hhi
        rw [tailPayload_upper_some, if_pos hhi]
      · intro h
        exact absurd h hname

/-- Amended claim C10: on every Active-state disk_usage tick the emitted
yhat equals the observed value (the point forecast is discarded via none)
and yhat_upper equals the fixed bound 80; yhat_lower is the clamped model
lower band when that value is nonzero, and otherwise (zero band, falsy in
Python) echoes the observed value. -/
theorem C10_disk_reporting (F : Forecaster) (Seg : Segmenter)
    (s : MetricAnomalyDetector) (t : ℕ) (y : ℚ) (p lo hi : ℚ)
    (hdup : normTs t ∉ s.metric_xs)
    (hmin : MIN_TRAINING_SIZE ≤ s.metric_xs.length)
    (hplen : s.pred_history.length = s.metric_xs.length)
    (hname : s.metric_name = ("disk_usage"))
    (hF : F s.metric_xs s.metric_y (rollingStart s) = some (p, lo, hi)) :
    ∃ s' pl, runStep F Seg s t y = RunResult.ok s' (some pl) ∧
      pl.yhat = y ∧
      pl.yhat_upper = 80 ∧
      pl.yhat_lower = (if lo = 0 then y else min (max 0 lo) 100) := by
  rw [runStep_active_some F Seg s t y p lo hi hdup hmin hplen hF, if_pos hname]
  refine ⟨_, _, rfl, ?_, ?_, ?_⟩
  · exact tailPayload_yhat_none _ _ _ _ _ _
  · rw [tailPayload_upper_some, if_neg (by norm_num)]
    rw [max_eq_left (by norm_num), min_eq_left (by norm_num)]
  · exact tailPayload_lower_some _ _ _ _ _ _ _

/-- Amended claim C3: when the forecaster raises on an Active-state tick,
the exception escapes run: no Evaluation is produced, no point is
appended to any buffer, and only the rolling-window recompute of
start_index has taken effect. -/
theorem C3_fit_failure_escapes (F : Forecaster) (Seg : Segmenter)
    (s : MetricAnomalyDetector) (t : ℕ) (y : ℚ)
    (hdup : normTs t ∉ s.metric_xs)
    (hmin : MIN_TRAINING_SIZE ≤ s.metric_xs.length)
    (hF : F s.metric_xs s.metric_y (rollingStart s) = none) :
    runStep F Seg s t y = RunResult.exn { s with start_index := rollingStart s } ∧
    ((runStep F Seg s t y).state).metric_xs = s.metric_xs ∧
    ((runStep F Seg s t y).state).metric_y = s.metric_y ∧
    ((runStep F Seg s t y).state).pred_history = s.pred_history ∧
    (runStep F Seg s t y).payload = none ∧
    (runStep F Seg s t y).isExn = true := by
  rw [runStep_exn_of_none F Seg s t y hdup hmin hF]
  exact ⟨rfl, rfl, rfl, rfl, rfl, rfl⟩

/-- A concrete Active-state disk_usage detector with 30 buffered points. -/
def activeDisk : MetricAnomalyDetector :=
  { cluster_id := "c", metric_name := "disk_usage",
    metric_xs := (List.range 30).map (fun i => 60 * i),
    metric_y := List.replicate 30 50,
    metric_rawy := List.replicate 30 50,
    pred_history := List.replicate 30 (none, none, none),
    alert_score_counter := 0, anomaly_history := List.replicate 30 0,
    start_index := 0, anomaly_start_time := none }

/-- A concrete Active-state memory_usage detector with 30 buffered points. -/
def activeMem : MetricAnomalyDetector :=
  { cluster_id := "c", metric_name := "memory_usage",
    metric_xs := (List.range 30).map (fun i => 60 * i),
    metric_y := List.replicate 30 50,
    metric_rawy := List.replicate 30 50,
    pred_history := List.replicate 30 (none, none, none),
    alert_score_counter := 0, anomaly_history := List.replicate 30 0,
    start_index := 0, anomaly_start_time := none }

/-- Concrete instantiation of C8: observed exactly 80 is anomalous. -/
theorem C8_witness :
    ∃ s' pl, runStep (fun _ _ _ => some (50, 40, 60)) (fun _ => []) activeDisk 1800 80 =
        RunResult.ok s' (some pl) ∧
      pl.is_anomaly = (if (80 : ℚ) ≤ 80 then 1 else 0) ∧
      (pl.is_anomaly = 1 ↔ (80 : ℚ) ≤ 80) :=
  C8_one_sided_disk (fun _ _ _ => some (50, 40, 60)) (fun _ => []) activeDisk 1800 80
    50 40 60 (by decide) (by decide) (by decide) rfl rfl

/-- Concrete instantiation of the amended C9. -/
theorem C9_witness :
    ∃ s' pl, runStep (fun _ _ _ => some (50, 40, 60)) (fun _ => []) activeMem 1800 55 =
        RunResult.ok s' (some pl) ∧
      ((40 : ℚ) ≠ 0 → pl.yhat_lower = min (max 0 40) 100 ∧
        0 ≤ pl.yhat_lower ∧ pl.yhat_lower ≤ 100) ∧
      ((40 : ℚ) = 0 → pl.yhat_lower = 55) ∧
      (activeMem.metric_name ≠ ("disk_usage") → (60 : ℚ) ≠ 0 →
        pl.yhat_upper = min (max 60 0) 100 ∧
        0 ≤ pl.yhat_upper ∧ pl.yhat_upper ≤ 100) ∧
      (activeMem.metric_name ≠ ("disk_usage") → (60 : ℚ) = 0 → pl.yhat_upper = 55) ∧
      (activeMem.metric_name = ("disk_usage") → pl.yhat_upper = 80) :=
  C9_band_clamping (fun _ _ _ => some (50, 40, 60)) (fun _ => []) activeMem 1800 55
    50 40 60 (by decide) (by decide) (by decide) rfl

/-- Concrete instantiation of the amended C10. -/
theorem C10_witness :
    ∃ s' pl, runStep (fun _ _ _ => some (50, 40, 60)) (fun _ => []) activeDisk 1800 55 =
        RunResult.ok s' (some pl) ∧
      pl.yhat = 55 ∧
      pl.yhat_upper = 80 ∧
      pl.yhat_lower = (if (40 : ℚ) = 0 then 55 else min (max 0 40) 100) :=
  C10_disk_reporting (fun _ _ _ => some (50, 40, 60)) (fun _ => []) activeDisk 1800 55
    50 40 60 (by decide) (by decide) (by decide) rfl rfl

/-- Concrete instantiation of the amended C3: a failing fit on an
Active-state tick escapes run with nothing appended. -/
theorem C3_witness :
    runStep (fun _ _ _ => none) (fun _ => []) activeMem 1800 55 =
      RunResult.exn { activeMem with start_index := rollingStart activeMem } ∧
    ((runStep (fun _ _ _ => none) (fun _ => []) activeMem 1800 55).state).metric_xs =
      activeMem.metric_xs ∧
    ((runStep (fun _ _ _ => none) (fun _ => []) activeMem 1800 55).state).metric_y =
      activeMem.metric_y ∧
    ((runStep (fun _ _ _ => none) (fun _ => []) activeMem 1800 55).state).pred_history =
      activeMem.pred_history ∧
    (runStep (fun _ _ _ => none) (fun _ => []) activeMem 1800 55).payload = none ∧
    (runStep (fun _ _ _ => none) (fun _ => []) activeMem 1800 55).isExn = true :=
  C3_fit_failure_escapes (fun _ _ _ => none) (fun _ => []) activeMem 1800 55
    (by decide) (by decide) rfl

lemma runTail_eq (Seg : Segmenter) (s1 : MetricAnomalyDetector) (a : ℕ) (b : ℚ)
    (yp ypl yph : Option ℚ) (ia : ℕ) :
    runTail Seg s1 a b yp ypl yph ia =
      RunResult.ok (maybeCPD Seg (tailState s1 a b ypl yph ia))
        (some (tailPayload s1 a b yp ypl yph ia)) := rfl

lemma bootstrapStep_eq (Seg : Segmenter) (s1 : MetricAnomalyDetector) (a : ℕ) (b : ℚ) :
    bootstrapStep Seg s1 a b =
      RunResult.ok (maybeCPD Seg (bootState s1 a b))
        (some (basePayload s1 a b)) := rfl

lemma runTail_state_xs (Seg : Segmenter) (s1 : MetricAnomalyDetector) (a : ℕ)
    (b : ℚ) (yp ypl yph : Option ℚ) (ia : ℕ) :
    ((runTail Seg s1 a b yp ypl yph ia).state).metric_xs = s1.metric_xs ++ [a] := by
  show (maybeCPD Seg (tailState s1 a b ypl yph ia)).metric_xs = _
  rw [maybeCPD_metric_xs]
  rfl

lemma bootstrapStep_state_xs (Seg : Segmenter) (s1 : MetricAnomalyDetector)
    (a : ℕ) (b : ℚ) :
    ((bootstrapStep Seg s1 a b).state).metric_xs = s1.metric_xs ++ [a] := by
  show (maybeCPD Seg (bootState s1 a b)).metric_xs = _
  rw [maybeCPD_metric_xs]
  rfl

lemma twoSidedTail_xs_mono (Seg : Segmenter) (s1 : MetricAnomalyDetector)
    (a : ℕ) (b : ℚ) (trip : Option ℚ × Option ℚ × Option ℚ) :
    s1.metric_xs.length ≤ ((twoSidedTail Seg s1 a b trip).state).metric_xs.length := by
  rcases twoSidedTail_cases Seg s1 a b trip with h | ⟨lo, ia, -, h⟩
  · rw [h]
    exact le_refl _
  · rw [h, runTail_state_xs]
    simp

lemma runStep_xs_len_mono (F : Forecaster) (Seg : Segmenter)
    (s : MetricAnomalyDetector) (t : ℕ) (y : ℚ) :
    s.metric_xs.length ≤ ((runStep F Seg s t y).state).metric_xs.length := by
  simp only [runStep]
  split
  · exact le_refl _
  · rcases htr : train_and_predict F s with ⟨s1, b⟩
    have hs1 : s1.metric_xs = s.metric_xs := by
      cases b
      · rcases train_false_inv F s s1 htr with ⟨-, rfl⟩ | ⟨-, p, lo, hi, -, rfl⟩
        · rfl
        · rfl
      · obtain ⟨-, -, rfl⟩ := train_true_inv F s s1 htr
        rfl
    rw [← hs1]
    split
    · rename_i s2 heq
      injection heq with h1 h2
      subst h1
      exact le_refl _
    · rename_i s2 heq
      injection heq with h1 h2
      subst h1
      split
      · split
        · rw [runTail_state_xs]
          simp
        · exact twoSidedTail_xs_mono Seg s1 _ _ _
      · rw [bootstrapStep_state_xs]
        simp

lemma runStep_active_any (F : Forecaster) (Seg : Segmenter)
    (s : MetricAnomalyDetector) (t : ℕ) (y : ℚ) (p lo hi : ℚ)
    (hdup : normTs t ∉ s.metric_xs)
    (hmin : MIN_TRAINING_SIZE ≤ s.metric_xs.length)
    (hF : F s.metric_xs s.metric_y (rollingStart s) = some (p, lo, hi)) :
    runStep F Seg s t y =
      (if s.metric_name = ("disk_usage") then
        runTail Seg (afterTrain s p lo hi) (normTs t) y none
          ((afterTrain s p lo hi).pred_history.getD s.metric_xs.length
            (none, none, none)).2.1
          (some 80) (if (80 : ℚ) ≤ y then 1 else 0)
      else
        twoSidedTail Seg (afterTrain s p lo hi) (normTs t) y
          ((afterTrain s p lo hi).pred_history.getD s.metric_xs.length
            (none, none, none))) := by
  simp only [runStep, train_of_some F s p lo hi hmin hF]
  rw [if_neg hdup,
    if_pos (show MIN_TRAINING_SIZE ≤ (afterTrain s p lo hi).metric_xs.length from hmin)]
  rfl

lemma tailState_metric_y (s1 : MetricAnomalyDetector) (a : ℕ) (b : ℚ)
    (ypl yph : Option ℚ) (ia : ℕ) :
    ∃ yT, (tailState s1 a b ypl yph ia).metric_y = s1.metric_y ++ [yT] := ⟨_, rfl⟩

lemma runStep_ok_inv (F : Forecaster) (Seg : Segmenter) (s : MetricAnomalyDetector)
    (t : ℕ) (y : ℚ) (s' : MetricAnomalyDetector) (pl : Option Payload)
    (h : runStep F Seg s t y = RunResult.ok s' pl) :
    (pl = none ∧ s' = s ∧ normTs t ∈ s.metric_xs) ∨
    (normTs t ∉ s.metric_xs ∧ ∃ q yT ia trip,
      pl = some q ∧
      s'.metric_xs = s.metric_xs ++ [normTs t] ∧
      s'.metric_y = s.metric_y ++ [yT] ∧
      s'.metric_rawy = s.metric_rawy ++ [y] ∧
      s'.anomaly_history = s.anomaly_history ++ [ia] ∧
      s'.pred_history = s.pred_history ++ [trip]) := by
  by_cases hdup : normTs t ∈ s.metric_xs
  · rw [runStep_of_mem F Seg s t y hdup] at h
    injection h with h1 h2
    exact Or.inl ⟨h2.symm, h1.symm, hdup⟩
  · right
    refine ⟨hdup, ?_⟩
    by_cases hmin : MIN_TRAINING_SIZE ≤ s.metric_xs.length
    · rcases hF : F s.metric_xs s.metric_y (rollingStart s) with _ | ⟨p, lo, hi⟩
      · rw [runStep_exn_of_none F Seg s t y hdup hmin hF] at h
        exact RunResult.noConfusion h
      · rw [runStep_active_any F Seg s t y p lo hi hdup hmin hF] at h
        by_cases hname : s.metric_name = ("disk_usage")
        · rw [if_pos hname, runTail_eq] at h
          injection h with hs hpl
          obtain ⟨yT, hyT⟩ := tailState_metric_y (afterTrain s p lo hi) (normTs t) y
            ((afterTrain s p lo hi).pred_history.getD s.metric_xs.length
              (none, none, none)).2.1 (some 80) (if (80 : ℚ) ≤ y then 1 else 0)
          refine ⟨_, yT, (if (80 : ℚ) ≤ y then 1 else 0),
            (some p, some lo, some hi), hpl.symm, ?_, ?_, ?_, ?_, ?_⟩
          · rw [← hs, maybeCPD_metric_xs]
            rfl
          · rw [← hs, maybeCPD_metric_y]
            exact hyT
          · rw [← hs, maybeCPD_metric_rawy]
            rfl
          · rw [← hs, maybeCPD_anomaly_history]
            rfl
          · rw [← hs, maybeCPD_pred_history]
            rfl
        · rw [if_neg hname] at h
          rcases twoSidedTail_cases Seg (afterTrain s p lo hi) (normTs t) y
              ((afterTrain s p lo hi).pred_history.getD s.metric_xs.length
                (none, none, none)) with hcase | ⟨lo2, ia2, -, hcase⟩
          · rw [hcase] at h
            exact RunResult.noConfusion h
          · rw [hcase, runTail_eq] at h
            injection h with hs hpl
            obtain ⟨yT, hyT⟩ := tailState_metric_y (afterTrain s p lo hi) (normTs t) y
              (some lo2)
              ((afterTrain s p lo hi).pred_history.getD s.metric_xs.length
                (none, none, none)).2.2 ia2
            refine ⟨_, yT, ia2, (some p, some lo, some hi), hpl.symm, ?_, ?_, ?_, ?_, ?_⟩
            · rw [← hs, maybeCPD_metric_xs]
              rfl
            · rw [← hs, maybeCPD_metric_y]
              exact hyT
            · rw [← hs, maybeCPD_metric_rawy]
              rfl
            · rw [← hs, maybeCPD_anomaly_history]
              rfl
            · rw [← hs, maybeCPD_pred_history]
              rfl
    · rw [runStep_boot F Seg s t y hdup (by omega), bootstrapStep_eq] at h
      injection h with hs hpl
      refine ⟨_, y, 0, (none, none, none), hpl.symm, ?_, ?_, ?_, ?_, ?_⟩
      · rw [← hs, maybeCPD_metric_xs]
        rfl
      · rw [← hs, maybeCPD_metric_y]
        rfl
      · rw [← hs, maybeCPD_metric_rawy]
        rfl
      · rw [← hs, maybeCPD_anomaly_history]
        rfl
      · rw [← hs, maybeCPD_pred_history]
        rfl

/-- The equal-length invariant over the five parallel sequences. -/
def balancedBuffer (s : MetricAnomalyDetector) : Prop :=
  s.metric_y.length = s.metric_xs.length ∧
  s.metric_rawy.length = s.metric_xs.length ∧
  s.pred_history.length = s.metric_xs.length ∧
  s.anomaly_history.length = s.metric_xs.length

lemma load_fields (s : MetricAnomalyDetector) (docs : List HistoryDoc) :
    (load s docs).metric_xs = s.metric_xs ++ docs.map HistoryDoc.timestamp ∧
    (load s docs).metric_y.length = s.metric_y.length + docs.length ∧
    (load s docs).metric_rawy.length = s.metric_rawy.length + docs.length ∧
    (load s docs).pred_history.length = s.pred_history.length + docs.length ∧
    (load s docs).anomaly_history.length = s.anomaly_history.length + docs.length := by
  induction docs generalizing s with
  | nil => simp [load]
  | cons d ds ih =>
    have hstep : load s (d :: ds) = load (loadOne s d) ds := by
      simp [load]
    obtain ⟨h1, h2, h3, h4, h5⟩ := ih (loadOne s d)
    rw [hstep]
    refine ⟨?_, ?_, ?_, ?_, ?_⟩
    · rw [h1]
      simp [loadOne, List.append_assoc]
    · rw [h2]
      simp [loadOne]
      omega
    · rw [h3]
      simp [loadOne]
      omega
    · rw [h4]
      simp [loadOne]
      omega
    · rw [h5]
      simp [loadOne]
      omega

/-- Amended claim C5: after every accepted ingest the five parallel
sequences each grow by exactly one (equal lengths preserved), a
duplicate-timestamp ingest leaves the state untouched, no buffered
timestamp is ever accepted again (no-duplicates preserved), and history
replay preserves equal lengths; strict monotonicity of the timestamps is
preserved provided each accepted point's normalized timestamp exceeds all
buffered ones (the code rejects only exact duplicates, so an out-of-order
non-duplicate timestamp is accepted and breaks monotonicity) and
provided the replayed history extends the buffer increasingly. -/
theorem C5_buffer_invariant :
    (∀ (F : Forecaster) (Seg : Segmenter) (s : MetricAnomalyDetector) (t : ℕ)
      (y : ℚ) (s' : MetricAnomalyDetector),
      runStep F Seg s t y = RunResult.ok s' none → s' = s) ∧
    (∀ (F : Forecaster) (Seg : Segmenter) (s : MetricAnomalyDetector) (t : ℕ)
      (y : ℚ) (s' : MetricAnomalyDetector) (q : Payload),
      runStep F Seg s t y = RunResult.ok s' (some q) →
      normTs t ∉ s.metric_xs ∧
      s'.metric_xs.length = s.metric_xs.length + 1 ∧
      (balancedBuffer s → balancedBuffer s')) ∧
    (∀ (F : Forecaster) (Seg : Segmenter) (s : MetricAnomalyDetector) (t : ℕ)
      (y : ℚ) (s' : MetricAnomalyDetector) (pl : Option Payload),
      runStep F Seg s t y = RunResult.ok s' pl →
      s.metric_xs.Nodup → s'.metric_xs.Nodup) ∧
    (∀ (F : Forecaster) (Seg : Segmenter) (s : MetricAnomalyDetector) (t : ℕ)
      (y : ℚ) (s' : MetricAnomalyDetector) (pl : Option Payload),
      runStep F Seg s t y = RunResult.ok s' pl →
      List.Pairwise (· < ·) s.metric_xs →
      (∀ x ∈ s.metric_xs, x < normTs t) →
      List.Pairwise (· < ·) s'.metric_xs) ∧
    (∀ (s : MetricAnomalyDetector) (docs : List HistoryDoc),
      (balancedBuffer s → balancedBuffer (load s docs)) ∧
      (load s docs).metric_xs.length = s.metric_xs.length + docs.length) ∧
    (∀ (s : MetricAnomalyDetector) (docs : List HistoryDoc),
      List.Pairwise (· < ·) (s.metric_xs ++ docs.map HistoryDoc.timestamp) →
      List.Pairwise (· < ·) (load s docs).metric_xs) := by
  refine ⟨?_, ?_, ?_, ?_, ?_, ?_⟩
  · intro F Seg s t y s' h
    rcases runStep_ok_inv F Seg s t y s' none h with ⟨-, rfl, -⟩ | ⟨-, q, -, -, -, hq, -⟩
    · rfl
    · exact absurd hq.symm (Option.some_ne_none q)
  · intro F Seg s t y s' q h
    rcases runStep_ok_inv F Seg s t y s' (some q) h with ⟨hq, -, -⟩ | hacc
    · exact absurd hq (Option.some_ne_none q)
    · obtain ⟨hdup, q', yT, ia, trip, -, hxs, hy, hraw, han, hpred⟩ := hacc
      refine ⟨hdup, ?_, ?_⟩
      · rw [hxs]
        simp
      · rintro ⟨b1, b2, b3, b4⟩
        refine ⟨?_, ?_, ?_, ?_⟩ <;>
          simp only [hxs, hy, hraw, han, hpred, List.length_append,
            List.length_singleton] <;> omega
  · intro F Seg s t y s' pl h hnd
    rcases runStep_ok_inv F Seg s t y s' pl h with ⟨-, rfl, -⟩ | hacc
    · exact hnd
    · obtain ⟨hdup, q', yT, ia, trip, -, hxs, -, -, -, -⟩ := hacc
      rw [hxs]
      simp [List.nodup_append]
      exact ⟨hnd, fun hmem => hdup hmem⟩
  · intro F Seg s t y s' pl h hp hlt
    rcases runStep_ok_inv F Seg s t y s' pl h with ⟨-, rfl, -⟩ | hacc
    · exact hp
    · obtain ⟨hdup, q', yT, ia, trip, -, hxs, -, -, -, -⟩ := hacc
      rw [hxs, List.pairwise_append]
      refine ⟨hp, List.pairwise_singleton _ _, ?_⟩
      intro a ha b hb
      rw [List.mem_singleton] at hb
      subst hb
      exact hlt a ha
  · intro s docs
    obtain ⟨h1, h2, h3, h4, h5⟩ := load_fields s docs
    constructor
    · rintro ⟨b1, b2, b3, b4⟩
      refine ⟨?_, ?_, ?_, ?_⟩ <;>
        simp only [h1, h2, h3, h4, h5, List.length_append, List.length_map] <;> omega
    · rw [h1]
      simp
  · intro s docs hp
    rw [(load_fields s docs).1]
    exact hp

/-- The claim C5 as stated is false on the code: the duplicate check is
the only gate, so a non-duplicate timestamp arriving out of order is
accepted and the timestamp sequence is no longer strictly increasing.
Raw timestamp 130 normalizes to 120 and is accepted into a fresh buffer;
raw timestamp 10 then normalizes to 0, is not a duplicate, is accepted
(an Evaluation is returned), and the buffer becomes [120, 0]. -/
theorem C5_counterexample :
    ((runStep (fun _ _ _ => none) (fun _ => [])
        ((runStep (fun _ _ _ => none) (fun _ => [])
          (freshDetector ("memory_usage") ("c")) 130 1).state) 10 1).payload ≠ none) ∧
    ((runStep (fun _ _ _ => none) (fun _ => [])
        ((runStep (fun _ _ _ => none) (fun _ => [])
          (freshDetector ("memory_usage") ("c")) 130 1).state) 10 1).state).metric_xs
      = [120, 0] ∧
    ¬ List.Pairwise (· < ·)
      (((runStep (fun _ _ _ => none) (fun _ => [])
        ((runStep (fun _ _ _ => none) (fun _ => [])
          (freshDetector ("memory_usage") ("c")) 130 1).state) 10 1).state).metric_xs) := by
  refine ⟨?_, ?_, ?_⟩ <;> decide

/-- The detector state dupSample reaches after accepting raw timestamp
130 (normalized 120) with value 7. -/
def dupSampleNext : MetricAnomalyDetector :=
  { cluster_id := "c", metric_name := "cpu_usage", metric_xs := [60, 120],
    metric_y := [5, 7], metric_rawy := [5, 7],
    pred_history := [(none, none, none), (none, none, none)],
    alert_score_counter := 0, anomaly_history := [0, 0], start_index := 0,
    anomaly_start_time := none }

/-- Concrete instantiation of the amended C5: an accepted in-order ingest
on a one-point buffer grows every sequence by one and preserves balance. -/
theorem C5_witness :
    normTs 130 ∉ dupSample.metric_xs ∧
    dupSampleNext.metric_xs.length = dupSample.metric_xs.length + 1 ∧
    (balancedBuffer dupSample → balancedBuffer dupSampleNext) :=
  C5_buffer_invariant.2.1 (fun _ _ _ => none) (fun _ => []) dupSample 130 7
    dupSampleNext (basePayload dupSample 120 7) (by decide)

/-- The state of a fresh detector after replaying a purely-bootstrap
prefix: timestamps and values recorded verbatim, placeholder predictions,
all anomaly flags 0, untouched scorer and window. -/
def bootS (name cid : String) (xs : List ℕ) (ys : List ℚ) : MetricAnomalyDetector :=
  { cluster_id := cid, metric_name := name, metric_xs := xs, metric_y := ys,
    metric_rawy := ys, pred_history := List.replicate xs.length (none, none, none),
    alert_score_counter := 0, anomaly_history := List.replicate xs.length 0,
    start_index := 0, anomaly_start_time := none }

lemma feed_boot_fresh (F : Forecaster) (Seg : Segmenter) (name cid : String)
    (pts : List (ℕ × ℚ)) (hlen : pts.length ≤ MIN_TRAINING_SIZE)
    (hPW : List.Pairwise (· < ·) (pts.map (fun q => normTs q.1))) :
    feed F Seg (freshDetector name cid) pts =
      some (bootS name cid (pts.map (fun q => normTs q.1)) (pts.map Prod.snd)) := by
  have h := feed_boot F Seg pts (freshDetector name cid)
    (by simp [freshDetector]; omega)
    (by intro a ha; simp [freshDetector] at ha)
    (by
      show List.Pairwise (· < ·) ([] ++ pts.map (fun q => normTs q.1))
      rw [List.nil_append]
      exact hPW)
  rw [h]
  unfold bootS freshDetector
  simp

lemma runStep_in_boot (F : Forecaster) (Seg : Segmenter) (name cid : String)
    (xs : List ℕ) (ys : List ℚ) (t : ℕ) (y : ℚ)
    (hxslen : xs.length < MIN_TRAINING_SIZE) (hdup : normTs t ∉ xs) :
    ((runStep F Seg (bootS name cid xs ys) t y).payload).map
      (fun pl => (pl.is_anomaly, pl.yhat, pl.confidence_score)) =
    some (0, y, 0) := by
  rw [runStep_boot F Seg _ t y (by simpa [bootS] using hdup) (by simpa [bootS] using hxslen)]
  rfl

lemma runStep_at_boundary (F : Forecaster) (Seg : Segmenter) (name cid : String)
    (xs : List ℕ) (ys : List ℚ) (t31 : ℕ) (y31 : ℚ) (p lo hi : ℚ)
    (hxslen : xs.length = MIN_TRAINING_SIZE)
    (hyslen : ys.length = MIN_TRAINING_SIZE)
    (hdup : normTs t31 ∉ xs)
    (hF : F xs ys 0 = some (p, lo, hi)) :
    ((runStep F Seg (bootS name cid xs ys) t31 y31).payload).map
      (fun pl => (pl.confidence_score, pl.is_anomaly)) =
    some (1,
      if name = ("disk_usage") then (if (80 : ℚ) ≤ y31 then 1 else 0)
      else (if y31 < lo ∨ hi < y31 then 1 else 0)) := by
  have hroll : rollingStart (bootS name cid xs ys) = 0 := by
    unfold rollingStart
    rw [if_neg]
    · simp [bootS]
    · simp [bootS, hyslen, ROLLING_TRAINING_SIZE, MIN_TRAINING_SIZE]
  have hF' : F (bootS name cid xs ys).metric_xs (bootS name cid xs ys).metric_y
      (rollingStart (bootS name cid xs ys)) = some (p, lo, hi) := by
    rw [hroll]
    exact hF
  rw [runStep_active_some F Seg (bootS name cid xs ys) t31 y31 p lo hi
    (by simpa [bootS] using hdup)
    (by simp [bootS, hxslen])
    (by simp [bootS])
    hF']
  by_cases hname : name = ("disk_usage")
  · rw [if_pos (show (bootS name cid xs ys).metric_name = _ from hname), if_pos hname]
    rfl
  · rw [if_neg (show ¬ (bootS name cid xs ys).metric_name = _ from hname), if_neg hname,
      twoSidedTail_some]
    by_cases hy : y31 < lo
    · rw [if_pos hy, if_pos (Or.inl hy)]
      rfl
    · rw [if_neg hy]
      by_cases hh : hi < y31
      · rw [if_pos hh, if_pos (Or.inr hh)]
        rfl
      · rw [if_neg hh, if_neg (by rintro (h | h) <;> [exact hy h; exact hh h])]
        rfl

/-- Claim C4: a fresh detector fed MIN_TRAINING_SIZE points with strictly
increasing normalized timestamps stays in Bootstrap for the points at
indices 0 .. MIN_TRAINING_SIZE - 1 (Evaluation echoes the observation,
is_anomaly 0, confidence 0), and the point at index MIN_TRAINING_SIZE is
the first judged from the model (confidence 1, is_anomaly decided by the
per-metric policy on the forecaster band); the buffer length never
shrinks, so the Bootstrap-to-Active transition is one-way. -/
theorem C4_bootstrap_boundary (F : Forecaster) (Seg : Segmenter)
    (name cid : String) (pts : List (ℕ × ℚ)) (t31 : ℕ) (y31 : ℚ) (p lo hi : ℚ)
    (hlen : pts.length = MIN_TRAINING_SIZE)
    (hinc : List.Pairwise (· < ·) (pts.map (fun q => normTs q.1) ++ [normTs t31]))
    (hF : F (pts.map (fun q => normTs q.1)) (pts.map Prod.snd) 0 = some (p, lo, hi)) :
    (∀ i : ℕ, i < MIN_TRAINING_SIZE →
      (runAt F Seg (freshDetector name cid) (pts.take i)
          (pts.getD i (0, 0)).1 (pts.getD i (0, 0)).2).map
        (fun pl => (pl.is_anomaly, pl.yhat, pl.confidence_score)) =
      some (0, (pts.getD i (0, 0)).2, 0)) ∧
    ((runAt F Seg (freshDetector name cid) pts t31 y31).map
        (fun pl => (pl.confidence_score, pl.is_anomaly)) =
      some (1,
        if name = ("disk_usage") then (if (80 : ℚ) ≤ y31 then 1 else 0)
        else (if y31 < lo ∨ hi < y31 then 1 else 0))) ∧
    (∀ (s : MetricAnomalyDetector) (t : ℕ) (y : ℚ),
      s.metric_xs.length ≤ ((runStep F Seg s t y).state).metric_xs.length) := by
  have hmapPW : List.Pairwise (· < ·) (pts.map (fun q => normTs q.1)) :=
    (List.pairwise_append.mp hinc).1
  refine ⟨?_, ?_, ?_⟩
  · intro i hi
    have hiL : i < pts.length := by omega
    have hPWi : List.Pairwise (· < ·) ((pts.take i).map (fun q => normTs q.1)) := by
      rw [List.map_take]
      exact List.Pairwise.sublist (List.take_sublist _ _) hmapPW
    have hfeed := feed_boot_fresh F Seg name cid (pts.take i)
      (by rw [List.length_take]; omega) hPWi
    have hsplit : pts.map (fun q => normTs q.1) =
        (pts.take i).map (fun q => normTs q.1) ++
          (pts.drop i).map (fun q => normTs q.1) := by
      rw [← List.map_append, List.take_append_drop]
    have hPWsplit : List.Pairwise (· < ·)
        ((pts.take i).map (fun q => normTs q.1) ++
          (pts.drop i).map (fun q => normTs q.1)) := by
      rw [← hsplit]
      exact hmapPW
    rw [List.pairwise_append] at hPWsplit
    have hmemdrop : normTs ((pts.getD i (0, 0)).1) ∈
        (pts.drop i).map (fun q => normTs q.1) := by
      rw [List.drop_eq_get_cons hiL, List.getD_eq_get pts (0, 0) hiL, List.map_cons]
      exact List.mem_cons_self _ _
    have hdupi : normTs (pts.getD i (0, 0)).1 ∉
        (pts.take i).map (fun q => normTs q.1) := by
      intro hmem
      exact lt_irrefl _ (hPWsplit.2.2 _ hmem _ hmemdrop)
    simp only [runAt, hfeed]
    exact runStep_in_boot F Seg name cid _ _ _ _
      (by rw [List.length_map, List.length_take]; omega) hdupi
  · have hfeed := feed_boot_fresh F Seg name cid pts (le_of_eq hlen) hmapPW
    have hdup : normTs t31 ∉ pts.map (fun q => normTs q.1) := by
      rw [List.pairwise_append] at hinc
      intro hmem
      exact lt_irrefl _ (hinc.2.2 _ hmem _ (by simp))
    simp only [runAt, hfeed]
    exact runStep_at_boundary F Seg name cid _ _ t31 y31 p lo hi
      (by rw [List.length_map]; exact hlen)
      (by rw [List.length_map]; exact hlen) hdup hF
  · intro s t y
    exact runStep_xs_len_mono F Seg s t y

/-- Thirty constant samples at one-minute spacing. -/
def ptsConst : List (ℕ × ℚ) := (List.range 30).map (fun i => (60 * i, 50))

/-- Concrete instantiation of C4: thirty constant points then one live
point judged against the band (40, 60). -/
theorem C4_witness :
    (∀ i : ℕ, i < MIN_TRAINING_SIZE →
      (runAt (fun _ _ _ => some (50, 40, 60)) (fun _ => [])
          (freshDetector ("memory_usage") ("c")) (ptsConst.take i)
          (ptsConst.getD i (0, 0)).1 (ptsConst.getD i (0, 0)).2).map
        (fun pl => (pl.is_anomaly, pl.yhat, pl.confidence_score)) =
      some (0, (ptsConst.getD i (0, 0)).2, 0)) ∧
    ((runAt (fun _ _ _ => some (50, 40, 60)) (fun _ => [])
        (freshDetector ("memory_usage") ("c")) ptsConst 1800 95).map
        (fun pl => (pl.confidence_score, pl.is_anomaly)) =
      some (1,
        if ("memory_usage" : String) = ("disk_usage") then
          (if (80 : ℚ) ≤ 95 then 1 else 0)
        else (if (95 : ℚ) < 40 ∨ (60 : ℚ) < 95 then 1 else 0))) ∧
    (∀ (s : MetricAnomalyDetector) (t : ℕ) (y : ℚ),
      s.metric_xs.length ≤
        ((runStep (fun _ _ _ => some (50, 40, 60)) (fun _ => []) s t y).state).metric_xs.length) :=
  C4_bootstrap_boundary (fun _ _ _ => some (50, 40, 60)) (fun _ => [])
    ("memory_usage") ("c") ptsConst 1800 95 50 40 60 (by decide) (by decide) rfl

/-- Claim C3 as stated is false on the code: there is no exception
handling around the forecaster, so on the first Active-state tick of a
fresh detector fed 30 points, a raising fit escapes run (isExn), no
Evaluation is emitted, and the point is not appended (the buffer stays at
30 points). -/
theorem C3_counterexample :
    runAt (fun _ _ _ => none) (fun _ => [])
      (freshDetector ("memory_usage") ("c")) ptsConst 1800 42 = none ∧
    ((feed (fun _ _ _ => none) (fun _ => [])
        (freshDetector ("memory_usage") ("c")) ptsConst).map (fun s30 =>
      ((runStep (fun _ _ _ => none) (fun _ => []) s30 1800 42).isExn,
        ((runStep (fun _ _ _ => none) (fun _ => []) s30 1800 42).state).metric_xs.length,
        s30.metric_xs.length))) = some (true, 30, 30) := by
  constructor
  · decide
  · decide

/-- Claim C9 as stated is false on the code: the clamp is guarded by
Python truthiness, so when the model's lower band is exactly 0 the
observed value (here 150) is reported as yhat_lower unclamped, outside
[0, 100], on a reachable Active-state Evaluation (confidence 1). -/
theorem C9_counterexample :
    (runAt (fun _ _ _ => some (50, 0, 60)) (fun _ => [])
        (freshDetector ("memory_usage") ("c")) ptsConst 1800 150).map
      (fun pl => (pl.confidence_score, pl.yhat_lower)) = some (1, 150) ∧
    ¬ ((150 : ℚ) ≤ 100) := by
  constructor
  · decide
  · decide

/-- Claim C10 as stated is false on the code: for disk_usage with a model
lower band of exactly 0 (falsy in Python), the emitted yhat_lower echoes
the observed value 50 instead of the (clamped) band value 0, while yhat
and yhat_upper behave as claimed. -/
theorem C10_counterexample :
    (runAt (fun _ _ _ => some (50, 0, 60)) (fun _ => [])
        (freshDetector ("disk_usage") ("c")) ptsConst 1800 50).map
      (fun pl => (pl.yhat, pl.yhat_lower, pl.yhat_upper)) = some (50, 50, 80) ∧
    ¬ ((50 : ℚ) = min (max 0 0) 100) := by
  constructor
  · decide
  · decide

end MetricForecasting
